import Mathlib

/-!
Shallow embedding of the mosaic crate (src/lib.rs): a `TileSet` registry
plus draw queue sitting on top of an external batched sprite renderer.

Modelling conventions:
* `i32` is embedded as `Int`; the Rust `/` on `i32` truncates toward zero,
  embedded as `Int.tdiv`; the `u32 -> i32` cast (`as i32`) is `i32_of_u32`.
* `f32` values (UV rectangles, destinations, scales, colors) are embedded
  as exact rationals `ℚ`; float rounding is abstracted away, the arithmetic
  is the exact arithmetic the source expressions denote.
* The `HashMap<Key, Point2<i32>>` registry is embedded as a function
  `Key → Option Point2`, which has unique keys by construction, exactly as
  a hash map does; `insert` is a pointwise update, `get` is application.
* A Rust method taking `&mut self` and returning `Result<(), E>` is
  embedded as a function returning `Except E Unit × TileSet Key`: the
  second component is the state after the call (the unchanged state when
  the method returns early with an error).
* `SpriteBatch` keeps its image and the ordered list of queued
  `DrawParam`s; `draw` forwards the whole batch to the renderer, so it is
  embedded as the list of draw commands submitted.
-/

/-- mint Point2 of i32, a pair of machine integers. -/
structure Point2 where
  x : Int
  y : Int
deriving DecidableEq

/-- mint Vector2 of i32 has the same components as Point2. -/
abbrev Vector2 := Point2

/-- ggez graphics Point2, a pair of f32, embedded over ℚ. -/
structure PointF where
  x : ℚ
  y : ℚ
deriving DecidableEq

/-- ggez Rect: position and size, f32 components embedded over ℚ. -/
structure Rect where
  x : ℚ
  y : ℚ
  w : ℚ
  h : ℚ
deriving DecidableEq

/-- ggez Color: rgba components, f32 embedded over ℚ. -/
structure Color where
  r : ℚ
  g : ℚ
  b : ℚ
  a : ℚ
deriving DecidableEq

/-- ggez Rect.new as used in queue_tile. -/
def Rect.new (x y w h : ℚ) : Rect := ⟨x, y, w, h⟩

/-- The fields of ggez DrawParam that queue_tile sets; the remaining
fields (offset, rotation, shear) are filled from Default in the source
and never inspected by the code, so they are omitted. -/
structure DrawParam where
  src : Rect
  dest : PointF
  color : Option Color
  scale : PointF
deriving DecidableEq

/-- ggez Image: an opaque texture with queryable pixel dimensions
(u32 values, embedded as Nat). -/
structure Image where
  width : Nat
  height : Nat
deriving DecidableEq

/-- ggez SpriteBatch: the sheet image plus the ordered queue of draw
commands accumulated so far. -/
structure SpriteBatch where
  image : Image
  sprites : List DrawParam

/-- SpriteBatch.new: an empty batch bound to an image. -/
def SpriteBatch.new (image : Image) : SpriteBatch :=
  { image := image, sprites := [] }

/-- SpriteBatch.add: append one draw command at the end of the batch. -/
def SpriteBatch.add (b : SpriteBatch) (p : DrawParam) : SpriteBatch :=
  { b with sprites := b.sprites ++ [p] }

/-- SpriteBatch.clear: remove all queued draw commands. -/
def SpriteBatch.clear (b : SpriteBatch) : SpriteBatch :=
  { b with sprites := [] }

/-- Possible errors from TileSet operations (src/lib.rs, TileSetError). -/
inductive TileSetError where
  | OutOfRange
  | TileNotFound
deriving DecidableEq

/-- Additional parameters for drawing tiles (src/lib.rs, TileParams). -/
structure TileParams where
  color : Option Color
  scale : Option PointF
deriving DecidableEq

/-- A set of tiles made from a tilesheet image (src/lib.rs, TileSet). -/
structure TileSet (Key : Type) where
  tile_size : Vector2
  tile_cache : Key → Option Point2
  sheet_dimensions : Vector2
  spritebatch : SpriteBatch

/-- The Rust cast u32 as i32: values below 2^31 are unchanged, larger
values wrap around. -/
def i32_of_u32 (n : Nat) : Int :=
  if n < 2 ^ 31 then (n : Int) else (n : Int) - 2 ^ 32

/-- TileSet.new (src/lib.rs lines 24-37): computes
sheet_dimensions = (width / tile_size.x, height / tile_size.y) with i32
division (truncation), starts with an empty registry and an empty
sprite batch bound to the sheet. -/
def TileSet.new {Key : Type} (sheet : Image) (tile_size : Vector2) : TileSet Key :=
  { tile_size := tile_size
    tile_cache := fun _ => none
    sheet_dimensions :=
      ⟨Int.tdiv (i32_of_u32 sheet.width) tile_size.x,
       Int.tdiv (i32_of_u32 sheet.height) tile_size.y⟩
    spritebatch := SpriteBatch.new sheet }

/-- TileSet.register_tile (src/lib.rs lines 41-55): rejects an index with
x > sheet_dimensions.x or y > sheet_dimensions.y with OutOfRange before
any mutation, otherwise inserts (overwrites) key ↦ index in the registry. -/
def TileSet.register_tile {Key : Type} [DecidableEq Key] (self : TileSet Key)
    (key : Key) (index : Point2) : Except TileSetError Unit × TileSet Key :=
  if index.x > self.sheet_dimensions.x ∨ index.y > self.sheet_dimensions.y then
    (Except.error TileSetError.OutOfRange, self)
  else
    (Except.ok (),
     { self with tile_cache := fun k => if k = key then some index else self.tile_cache k })

/-- TileSet.queue_tile (src/lib.rs lines 59-93): looks up key, returning
TileNotFound before any mutation if absent; otherwise computes the
normalized cell size, the source UV rect and the pixel destination, and
appends one draw command to the sprite batch. -/
def TileSet.queue_tile {Key : Type} (self : TileSet Key) (key : Key)
    (draw_location : Point2) (options : Option TileParams) :
    Except TileSetError Unit × TileSet Key :=
  match self.tile_cache key with
  | none => (Except.error TileSetError.TileNotFound, self)
  | some tile =>
      let options := options.getD { color := none, scale := none }
      let coords := draw_location
      let normal_x : ℚ := 1 / (self.sheet_dimensions.x : ℚ)
      let normal_y : ℚ := 1 / (self.sheet_dimensions.y : ℚ)
      (Except.ok (),
       { self with
           spritebatch := self.spritebatch.add
             { src := Rect.new (normal_x * (tile.x : ℚ)) (normal_y * (tile.y : ℚ))
                 normal_x normal_y
               dest := ⟨((coords.x * self.tile_size.x : Int) : ℚ),
                        ((coords.y * self.tile_size.y : Int) : ℚ)⟩
               color := options.color
               scale := options.scale.getD ⟨1, 1⟩ } })

/-- TileSet.clear_queue (src/lib.rs lines 96-98): clears the sprite batch. -/
def TileSet.clear_queue {Key : Type} (self : TileSet Key) : TileSet Key :=
  { self with spritebatch := self.spritebatch.clear }

/-- TileSet.draw (src/lib.rs lines 101-103): submits the whole batch in a
single draw call with default parameters; it takes the TileSet immutably.
Embedded as the list of draw commands forwarded to the renderer. -/
def TileSet.draw {Key : Type} (self : TileSet Key) : List DrawParam :=
  self.spritebatch.sprites

/-- Example tilesheet from the spec scenario: 64×32 pixels, 16×16 tiles,
so sheet_dimensions = (4, 2). Keys are naturals. -/
def exTS : TileSet Nat := TileSet.new ⟨64, 32⟩ ⟨16, 16⟩

/-- Example TileSet with key 0 registered at grid (0,0) and key 1 at
grid (3,1). -/
def exReg : TileSet Nat :=
  (((exTS.register_tile 0 ⟨0, 0⟩).2).register_tile 1 ⟨3, 1⟩).2

example : exTS.sheet_dimensions = ⟨4, 2⟩ := by decide
example : exReg.tile_cache 1 = some ⟨3, 1⟩ := by decide
example : (exTS.register_tile 0 ⟨-1, 0⟩).1 = Except.ok () := by rfl

/-- Helper: the full result of a queue_tile call whose key lookup hits. -/
theorem queue_tile_found_spec {Key : Type} (ts : TileSet Key) (key : Key) (p : Point2)
    (loc : Point2) (opts : Option TileParams) (h : ts.tile_cache key = some p) :
    ts.queue_tile key loc opts =
      (Except.ok (),
       { ts with
           spritebatch := ts.spritebatch.add
             { src := Rect.new ((1 / (ts.sheet_dimensions.x : ℚ)) * (p.x : ℚ))
                 ((1 / (ts.sheet_dimensions.y : ℚ)) * (p.y : ℚ))
                 (1 / (ts.sheet_dimensions.x : ℚ)) (1 / (ts.sheet_dimensions.y : ℚ))
               dest := ⟨((loc.x * ts.tile_size.x : Int) : ℚ),
                        ((loc.y * ts.tile_size.y : Int) : ℚ)⟩
               color := (opts.getD { color := none, scale := none }).color
               scale := (opts.getD { color := none, scale := none }).scale.getD ⟨1, 1⟩ } }) := by
  unfold TileSet.queue_tile
  rw [h]

/-- C1 counterexample: on the 64×32 sheet with 16×16 tiles
(sheet_dimensions = (4,2)), register_tile with index (-1, 0) succeeds even
though 0 ≤ -1 fails, so success is not equivalent to
0 ≤ x ≤ sheet_dimensions.x ∧ 0 ≤ y ≤ sheet_dimensions.y. -/
theorem C1_counterexample :
    ¬ (((exTS.register_tile 0 ⟨-1, 0⟩).1 = Except.ok ()) ↔
        (0 ≤ (-1 : Int) ∧ (-1 : Int) ≤ exTS.sheet_dimensions.x ∧
         0 ≤ (0 : Int) ∧ (0 : Int) ≤ exTS.sheet_dimensions.y)) := by
  intro hiff
  exact absurd (hiff.mp rfl).1 (by decide)

/-- C1 (amended): for every key and integer index (x,y), register_tile
succeeds iff x ≤ sheet_dimensions.x and y ≤ sheet_dimensions.y (the code
checks no lower bound, so negative indices are accepted); otherwise it
returns OutOfRange. -/
theorem C1_register_tile_iff {Key : Type} [DecidableEq Key] (ts : TileSet Key)
    (key : Key) (x y : Int) :
    ((ts.register_tile key ⟨x, y⟩).1 = Except.ok () ↔
      x ≤ ts.sheet_dimensions.x ∧ y ≤ ts.sheet_dimensions.y) ∧
    ((ts.register_tile key ⟨x, y⟩).1 = Except.error TileSetError.OutOfRange ↔
      ¬ (x ≤ ts.sheet_dimensions.x ∧ y ≤ ts.sheet_dimensions.y)) := by
  unfold TileSet.register_tile
  by_cases h : x > ts.sheet_dimensions.x ∨ y > ts.sheet_dimensions.y
  · simp only [if_pos h]
    constructor <;> simp <;> omega
  · simp only [if_neg h]
    constructor <;> simp <;> omega

/-- C1 (amended, witness): at the example sheet, index (4, 2) is accepted
exactly because 4 ≤ 4 and 2 ≤ 2. -/
theorem C1_witness :
    ((exTS.register_tile 2 ⟨4, 2⟩).1 = Except.ok () ↔
      (4 : Int) ≤ exTS.sheet_dimensions.x ∧ (2 : Int) ≤ exTS.sheet_dimensions.y) ∧
    ((exTS.register_tile 2 ⟨4, 2⟩).1 = Except.error TileSetError.OutOfRange ↔
      ¬ ((4 : Int) ≤ exTS.sheet_dimensions.x ∧ (2 : Int) ≤ exTS.sheet_dimensions.y)) :=
  C1_register_tile_iff exTS 2 4 2

/-- C4: queue_tile fails with TileNotFound exactly when the key is absent
from the registry, and in that case the whole TileSet state is unchanged. -/
theorem C4_queue_tile_not_found {Key : Type} (ts : TileSet Key) (key : Key)
    (loc : Point2) (opts : Option TileParams) :
    ((ts.queue_tile key loc opts).1 = Except.error TileSetError.TileNotFound ↔
      ts.tile_cache key = none) ∧
    (ts.tile_cache key = none → (ts.queue_tile key loc opts).2 = ts) := by
  unfold TileSet.queue_tile
  cases h : ts.tile_cache key <;> simp [h]

/-- C4 (witness): key 5 was never registered in the example TileSet, so
queueing it fails with TileNotFound and leaves the state unchanged. -/
theorem C4_witness :
    ((exTS.queue_tile 5 ⟨0, 0⟩ none).1 = Except.error TileSetError.TileNotFound) ∧
    ((exTS.queue_tile 5 ⟨0, 0⟩ none).2 = exTS) :=
  ⟨(C4_queue_tile_not_found exTS 5 ⟨0, 0⟩ none).1.mpr rfl,
   (C4_queue_tile_not_found exTS 5 ⟨0, 0⟩ none).2 rfl⟩

/-- C7: whenever register_tile returns OutOfRange, the resulting TileSet
equals the original one; no field (registry, queue, tile_size,
sheet_dimensions, sheet image) is mutated. -/
theorem C7_register_fail_no_mutation {Key : Type} [DecidableEq Key] (ts : TileSet Key)
    (key : Key) (i : Point2)
    (h : (ts.register_tile key i).1 = Except.error TileSetError.OutOfRange) :
    (ts.register_tile key i).2 = ts := by
  unfold TileSet.register_tile at h ⊢
  by_cases hc : i.x > ts.sheet_dimensions.x ∨ i.y > ts.sheet_dimensions.y
  · rw [if_pos hc]
  · rw [if_neg hc] at h
    simp at h

/-- C7 (witness): registering index (5, 0) on the example sheet fails with
OutOfRange and the state equals the original state. -/
theorem C7_witness :
    (exTS.register_tile 0 ⟨5, 0⟩).1 = Except.error TileSetError.OutOfRange ∧
    (exTS.register_tile 0 ⟨5, 0⟩).2 = exTS :=
  ⟨rfl, C7_register_fail_no_mutation exTS 0 ⟨5, 0⟩ rfl⟩

/-- C2: a successful queue_tile for a key registered at grid index (x,y)
appends a draw command whose source rectangle is
(x / sheet_dimensions.x, y / sheet_dimensions.y,
 1 / sheet_dimensions.x, 1 / sheet_dimensions.y) in normalized sheet
space; f32 arithmetic is modelled as exact rational arithmetic, where the
computed (1/sx)·x equals x/sx. -/
theorem C2_queue_src_rect {Key : Type} (ts : TileSet Key) (key : Key) (x y : Int)
    (loc : Point2) (opts : Option TileParams)
    (h : ts.tile_cache key = some ⟨x, y⟩) :
    ∃ cmd : DrawParam,
      (ts.queue_tile key loc opts).2.spritebatch.sprites =
        ts.spritebatch.sprites ++ [cmd] ∧
      cmd.src = Rect.new ((x : ℚ) / (ts.sheet_dimensions.x : ℚ))
        ((y : ℚ) / (ts.sheet_dimensions.y : ℚ))
        (1 / (ts.sheet_dimensions.x : ℚ)) (1 / (ts.sheet_dimensions.y : ℚ)) := by
  rw [queue_tile_found_spec ts key ⟨x, y⟩ loc opts h]
  refine ⟨_, rfl, ?_⟩
  show Rect.new _ _ _ _ = _
  rw [one_div_mul_eq_div, one_div_mul_eq_div]

/-- C2 (witness): key 1 is registered at (3, 1) on the 4×2 grid, and
queueing it appends a command with the matching source rectangle. -/
theorem C2_witness :
    exReg.tile_cache 1 = some ⟨3, 1⟩ ∧
    ∃ cmd : DrawParam,
      (exReg.queue_tile 1 ⟨2, 3⟩ none).2.spritebatch.sprites =
        exReg.spritebatch.sprites ++ [cmd] ∧
      cmd.src = Rect.new (((3 : Int) : ℚ) / (exReg.sheet_dimensions.x : ℚ))
        (((1 : Int) : ℚ) / (exReg.sheet_dimensions.y : ℚ))
        (1 / (exReg.sheet_dimensions.x : ℚ)) (1 / (exReg.sheet_dimensions.y : ℚ)) :=
  ⟨by decide, C2_queue_src_rect exReg 1 3 1 ⟨2, 3⟩ none (by decide)⟩

/-- C3: a successful queue_tile at integer draw_location loc appends a
draw command whose destination is exactly
(loc.x · tile_size.x, loc.y · tile_size.y) in pixels (the exact integer
products, cast to the rational embedding of f32). -/
theorem C3_queue_dest {Key : Type} (ts : TileSet Key) (key : Key) (p : Point2)
    (loc : Point2) (opts : Option TileParams)
    (h : ts.tile_cache key = some p) :
    ∃ cmd : DrawParam,
      (ts.queue_tile key loc opts).2.spritebatch.sprites =
        ts.spritebatch.sprites ++ [cmd] ∧
      cmd.dest = ⟨((loc.x * ts.tile_size.x : Int) : ℚ),
                  ((loc.y * ts.tile_size.y : Int) : ℚ)⟩ := by
  rw [queue_tile_found_spec ts key p loc opts h]
  exact ⟨_, rfl, rfl⟩

/-- C3 (witness): queueing the tile of key 0 at cell (2, 3) with 16×16
tiles lands at pixel destination (32, 48). -/
theorem C3_witness :
    exReg.tile_cache 0 = some ⟨0, 0⟩ ∧
    ∃ cmd : DrawParam,
      (exReg.queue_tile 0 ⟨2, 3⟩ none).2.spritebatch.sprites =
        exReg.spritebatch.sprites ++ [cmd] ∧
      cmd.dest = ⟨(((⟨2, 3⟩ : Point2).x * exReg.tile_size.x : Int) : ℚ),
                  (((⟨2, 3⟩ : Point2).y * exReg.tile_size.y : Int) : ℚ)⟩ :=
  ⟨by decide, C3_queue_dest exReg 0 ⟨0, 0⟩ ⟨2, 3⟩ none (by decide)⟩

/-- C5: new computes sheet_dimensions with floor division of the sheet
pixel size by the tile size (for positive tile sizes and i32-range sheet
sizes, the truncating i32 division is floor division), and no operation
ever changes sheet_dimensions afterwards (draw takes the TileSet
immutably, so only register_tile, queue_tile and clear_queue can touch
state). -/
theorem C5_sheet_dimensions {Key : Type} [DecidableEq Key] :
    (∀ (sheet : Image) (tile_size : Vector2),
        0 < tile_size.x → 0 < tile_size.y →
        sheet.width < 2 ^ 31 → sheet.height < 2 ^ 31 →
        (@TileSet.new Key sheet tile_size).sheet_dimensions =
          ⟨Int.fdiv (sheet.width : Int) tile_size.x,
           Int.fdiv (sheet.height : Int) tile_size.y⟩) ∧
    (∀ (ts : TileSet Key) (k : Key) (i : Point2),
        ((ts.register_tile k i).2).sheet_dimensions = ts.sheet_dimensions) ∧
    (∀ (ts : TileSet Key) (k : Key) (loc : Point2) (opts : Option TileParams),
        ((ts.queue_tile k loc opts).2).sheet_dimensions = ts.sheet_dimensions) ∧
    (∀ ts : TileSet Key, (ts.clear_queue).sheet_dimensions = ts.sheet_dimensions) := by
  refine ⟨?_, ?_, ?_, ?_⟩
  · intro sheet tile_size hx hy hw hh
    have e1 : Int.tdiv (i32_of_u32 sheet.width) tile_size.x
        = Int.fdiv (sheet.width : Int) tile_size.x := by
      unfold i32_of_u32
      rw [if_pos hw, Int.tdiv_eq_ediv (Int.natCast_nonneg _) (le_of_lt hx),
          Int.fdiv_eq_ediv _ (le_of_lt hx)]
    have e2 : Int.tdiv (i32_of_u32 sheet.height) tile_size.y
        = Int.fdiv (sheet.height : Int) tile_size.y := by
      unfold i32_of_u32
      rw [if_pos hh, Int.tdiv_eq_ediv (Int.natCast_nonneg _) (le_of_lt hy),
          Int.fdiv_eq_ediv _ (le_of_lt hy)]
    show (⟨Int.tdiv (i32_of_u32 sheet.width) tile_size.x,
           Int.tdiv (i32_of_u32 sheet.height) tile_size.y⟩ : Vector2) = _
    rw [e1, e2]
  · intro ts k i
    unfold TileSet.register_tile
    by_cases h : i.x > ts.sheet_dimensions.x ∨ i.y > ts.sheet_dimensions.y
    · rw [if_pos h]
    · rw [if_neg h]
  · intro ts k loc opts
    unfold TileSet.queue_tile
    cases h : ts.tile_cache k <;> rfl
  · intro ts
    rfl

/-- C5 (witness): a 64×32 sheet with 16×16 tiles has
sheet_dimensions = (⌊64/16⌋, ⌊32/16⌋) = (4, 2). -/
theorem C5_witness :
    (0 : Int) < (⟨16, 16⟩ : Vector2).x ∧
    (@TileSet.new Nat ⟨64, 32⟩ ⟨16, 16⟩).sheet_dimensions =
      ⟨Int.fdiv ((64 : Nat) : Int) 16, Int.fdiv ((32 : Nat) : Int) 16⟩ :=
  ⟨by decide,
   (@C5_sheet_dimensions Nat _).1 ⟨64, 32⟩ ⟨16, 16⟩
     (by decide) (by decide) (by decide) (by decide)⟩

/-- C6: registering the same key twice with in-bounds indices leaves the
registry mapping the key to the second index (last write wins; the
registry is a map with unique keys by construction). -/
theorem C6_last_write_wins {Key : Type} [DecidableEq Key] (ts : TileSet Key) (key : Key)
    (i1 i2 : Point2)
    (h1 : 0 ≤ i1.x ∧ i1.x ≤ ts.sheet_dimensions.x ∧
          0 ≤ i1.y ∧ i1.y ≤ ts.sheet_dimensions.y)
    (h2 : 0 ≤ i2.x ∧ i2.x ≤ ts.sheet_dimensions.x ∧
          0 ≤ i2.y ∧ i2.y ≤ ts.sheet_dimensions.y) :
    (((ts.register_tile key i1).2).register_tile key i2).2.tile_cache key = some i2 := by
  have hc1 : ¬ (i1.x > ts.sheet_dimensions.x ∨ i1.y > ts.sheet_dimensions.y) := by
    push_neg
    exact ⟨h1.2.1, h1.2.2.2⟩
  have hc2 : ¬ (i2.x > ts.sheet_dimensions.x ∨ i2.y > ts.sheet_dimensions.y) := by
    push_neg
    exact ⟨h2.2.1, h2.2.2.2⟩
  unfold TileSet.register_tile
  rw [if_neg hc1]
  dsimp only
  rw [if_neg hc2]
  dsimp only
  rw [if_pos rfl]

/-- C6 (witness): registering key 7 at (1, 1) and then at (2, 0) leaves
key 7 mapped to (2, 0). -/
theorem C6_witness :
    ((0 : Int) ≤ (1 : Int) ∧ (1 : Int) ≤ exTS.sheet_dimensions.x ∧
     (0 : Int) ≤ (1 : Int) ∧ (1 : Int) ≤ exTS.sheet_dimensions.y) ∧
    (((exTS.register_tile 7 ⟨1, 1⟩).2).register_tile 7 ⟨2, 0⟩).2.tile_cache 7 =
      some ⟨2, 0⟩ :=
  ⟨by decide, C6_last_write_wins exTS 7 ⟨1, 1⟩ ⟨2, 0⟩ (by decide) (by decide)⟩

/-- C8: clear_queue empties the draw queue and leaves the registry, tile
size, sheet dimensions and sheet image untouched; it is idempotent; and a
draw immediately after clear_queue forwards zero draw commands. -/
theorem C8_clear_queue {Key : Type} (ts : TileSet Key) :
    (ts.clear_queue).spritebatch.sprites = [] ∧
    (ts.clear_queue).tile_cache = ts.tile_cache ∧
    (ts.clear_queue).tile_size = ts.tile_size ∧
    (ts.clear_queue).sheet_dimensions = ts.sheet_dimensions ∧
    (ts.clear_queue).spritebatch.image = ts.spritebatch.image ∧
    (ts.clear_queue).clear_queue = ts.clear_queue ∧
    (ts.clear_queue).draw = [] :=
  ⟨rfl, rfl, rfl, rfl, rfl, rfl, rfl⟩

/-- C9: a successful queue_tile appends exactly one draw command at the
end of the queue, preserving the existing commands and their order, and
leaves the registry, tile size, sheet dimensions and sheet image
unchanged. -/
theorem C9_queue_appends_one {Key : Type} (ts : TileSet Key) (key : Key) (loc : Point2)
    (opts : Option TileParams)
    (h : (ts.queue_tile key loc opts).1 = Except.ok ()) :
    (∃ cmd : DrawParam,
      (ts.queue_tile key loc opts).2.spritebatch.sprites =
        ts.spritebatch.sprites ++ [cmd]) ∧
    (ts.queue_tile key loc opts).2.tile_cache = ts.tile_cache ∧
    (ts.queue_tile key loc opts).2.tile_size = ts.tile_size ∧
    (ts.queue_tile key loc opts).2.sheet_dimensions = ts.sheet_dimensions ∧
    (ts.queue_tile key loc opts).2.spritebatch.image = ts.spritebatch.image := by
  cases hc : ts.tile_cache key with
  | none =>
      unfold TileSet.queue_tile at h
      rw [hc] at h
      exact absurd h (by simp)
  | some p =>
      rw [queue_tile_found_spec ts key p loc opts hc]
      exact ⟨⟨_, rfl⟩, rfl, rfl, rfl, rfl⟩

/-- C9 (witness): queueing registered key 1 succeeds and appends one
command to the empty queue of the example TileSet. -/
theorem C9_witness :
    (exReg.queue_tile 1 ⟨0, 0⟩ none).1 = Except.ok () ∧
    ((∃ cmd : DrawParam,
        (exReg.queue_tile 1 ⟨0, 0⟩ none).2.spritebatch.sprites =
          exReg.spritebatch.sprites ++ [cmd]) ∧
     (exReg.queue_tile 1 ⟨0, 0⟩ none).2.tile_cache = exReg.tile_cache ∧
     (exReg.queue_tile 1 ⟨0, 0⟩ none).2.tile_size = exReg.tile_size ∧
     (exReg.queue_tile 1 ⟨0, 0⟩ none).2.sheet_dimensions = exReg.sheet_dimensions ∧
     (exReg.queue_tile 1 ⟨0, 0⟩ none).2.spritebatch.image = exReg.spritebatch.image) :=
  ⟨rfl, C9_queue_appends_one exReg 1 ⟨0, 0⟩ none rfl⟩

/-- C10: queue_tile called with no options appends a draw command with
scale (1, 1) and no color override. -/
theorem C10_default_options {Key : Type} (ts : TileSet Key) (key : Key) (p : Point2)
    (loc : Point2) (h : ts.tile_cache key = some p) :
    ∃ cmd : DrawParam,
      (ts.queue_tile key loc none).2.spritebatch.sprites =
        ts.spritebatch.sprites ++ [cmd] ∧
      cmd.scale = ⟨1, 1⟩ ∧ cmd.color = none := by
  rw [queue_tile_found_spec ts key p loc none h]
  exact ⟨_, rfl, rfl, rfl⟩

/-- C10 (witness): queueing registered key 0 with no options yields scale
(1, 1) and color none. -/
theorem C10_witness :
    exReg.tile_cache 0 = some ⟨0, 0⟩ ∧
    ∃ cmd : DrawParam,
      (exReg.queue_tile 0 ⟨1, 2⟩ none).2.spritebatch.sprites =
        exReg.spritebatch.sprites ++ [cmd] ∧
      cmd.scale = ⟨1, 1⟩ ∧ cmd.color = none :=
  ⟨by decide, C10_default_options exReg 0 ⟨0, 0⟩ ⟨1, 2⟩ (by decide)⟩
